import Mathlib

/-!
Shallow embedding of the ActivityPub federation subsystem of the
teodorgross/toffee repository (src/activitypub/server.js and
src/routes/activitypub.js), together with theorems settling the
behavioural claims about it.

Modelling conventions:
* JavaScript values that may be `undefined` are embedded as `Option`;
  `none` stands for `undefined`/absent.
* Publish timestamps (`post.date`, `page.lastModified`, `date_published`)
  are embedded as `Nat` millisecond timestamps; the JS code compares them
  through `new Date(...)`, which is order-isomorphic to the numeric value.
* A JS `Set` is embedded as a duplicate-free `List` in insertion order;
  `Set.prototype.add` becomes `setAdd` below.
* External effects (network fetch, RSA signing, hashing, clock, JSON
  serialisation) are supplied by a `World` record of oracle functions, so
  every embedded operation is a pure function of its state, its inputs
  and the world.
-/

/-- A blog content item as produced by the blog processor
(`src/blog/processor.js` guarantees `date`, `tags`, `excerpt` are set). -/
structure BlogPost where
  slug : String
  title : String
  content : String
  excerpt : String
  date : Nat
  tags : List String
  deriving Repr, DecidableEq

/-- A wiki content item as consumed by the federation core. -/
structure WikiPage where
  slug : String
  title : String
  content : String
  description : Option String
  lastModified : Nat
  category : String
  tags : List String
  deriving Repr, DecidableEq

/-- JS `a || b` on an optional string: `undefined` and the empty string
are falsy and select the default. -/
def jsOrString (a : Option String) (b : String) : String :=
  match a with
  | none => b
  | some s => if s = "" then b else s

/-- `Set.prototype.add` on the insertion-ordered list embedding of a JS
`Set`: a no-op when the element is already present, otherwise appended. -/
def setAdd {α : Type} [DecidableEq α] (s : List α) (x : α) : List α :=
  if x ∈ s then s else s ++ [x]

/-- `Set.prototype.delete`: removes the element (at most one occurrence
exists in a set; on the list embedding we filter it out). -/
def setDelete {α : Type} [DecidableEq α] (s : List α) (x : α) : List α :=
  s.filter (fun y => y ≠ x)

/-- An archived inbox activity (`{...activity, received: timestamp}`),
kept in the unbounded activities log. -/
structure ActivityRecord where
  actType : String
  actor : Option String
  received : Nat
  deriving Repr, DecidableEq

/-- The mutable state of the `ActivityPubServer` singleton
(server.js constructor, lines 5-23). Follower entries are whatever value
`activity.actor` held, hence `Option String` (may be `undefined`). -/
structure ServerState where
  domain : String
  username : String
  displayName : String
  description : String
  baseUrl : String
  publicKey : Option String
  privateKey : Option String
  followers : List (Option String)
  following : List (Option String)
  activities : List ActivityRecord
  deriving Repr

/-- The `publicKey` sub-object of the actor document. -/
structure ActorKeyObj where
  id : String
  owner : String
  publicKeyPem : Option String
  deriving Repr, DecidableEq

/-- The actor icon sub-object. -/
structure ActorIcon where
  mediaType : String
  url : String
  deriving Repr, DecidableEq

/-- The ActivityStreams Person document built by `generateActor`
(server.js lines 140-171). -/
structure ActorDoc where
  type : String
  id : String
  name : String
  preferredUsername : String
  summary : String
  url : String
  outbox : String
  followersUrl : String
  followingUrl : String
  inbox : String
  icon : ActorIcon
  publicKey : ActorKeyObj
  manuallyApprovesFollowers : Bool
  discoverable : Bool
  indexable : Bool
  deriving Repr, DecidableEq

/-- `generateActor()` (server.js lines 140-171): unconditionally builds
the Person document from current state; `publicKeyPem` is whatever
`this.publicKey` currently is, `null` included. No key check is made. -/
def generateActor (s : ServerState) : ActorDoc :=
  { type := "Person"
    id := s.baseUrl ++ "/actor.json"
    name := s.displayName
    preferredUsername := s.username
    summary := s.description
    url := s.baseUrl
    outbox := s.baseUrl ++ "/outbox.json"
    followersUrl := s.baseUrl ++ "/followers.json"
    followingUrl := s.baseUrl ++ "/following.json"
    inbox := s.baseUrl ++ "/inbox.json"
    icon := { mediaType := "image/jpeg", url := s.baseUrl ++ "/assets/img/avatar.jpg" }
    publicKey :=
      { id := s.baseUrl ++ "/actor.json#main-key"
        owner := s.baseUrl ++ "/actor.json"
        publicKeyPem := s.publicKey }
    manuallyApprovesFollowers := false
    discoverable := true
    indexable := true }

/-- `GET /actor` (routes file, lines 20-24): always responds 200 with the
document from `generateActor()`; there is no key-availability check. -/
def actorRoute (s : ServerState) : Nat × ActorDoc :=
  (200, generateActor s)

/-- A WebFinger link entry. -/
structure WFLink where
  rel : String
  linkType : Option String
  href : String
  deriving Repr, DecidableEq

/-- The WebFinger JRD document built by `generateWebFinger()`
(server.js lines 119-138). -/
structure WebFingerDoc where
  subject : String
  aliases : List String
  links : List WFLink
  deriving Repr, DecidableEq

/-- `generateWebFinger()` (server.js lines 119-138). -/
def generateWebFinger (s : ServerState) : WebFingerDoc :=
  { subject := "acct:" ++ s.username ++ "@" ++ s.domain
    aliases := [s.baseUrl ++ "/actor.json"]
    links :=
      [ { rel := "self", linkType := some "application/activity+json"
          href := s.baseUrl ++ "/actor.json" }
      , { rel := "http://webfinger.net/rel/profile-page", linkType := some "text/html"
          href := s.baseUrl } ] }

/-- The `acct:user@domain` string the WebFinger route compares against
(routes file, line 6). -/
def expectedAcct (s : ServerState) : String :=
  "acct:" ++ s.username ++ "@" ++ s.domain

/-- `GET /.well-known/webfinger` (routes file, lines 4-17):
`req.query.resource` is `Option String` (`none` = parameter absent);
the exact string match decides 200-with-JRD versus 404. -/
def webfingerRoute (s : ServerState) (resource : Option String) :
    Nat × Option WebFingerDoc :=
  if resource = some (expectedAcct s) then
    (200, some (generateWebFinger s))
  else
    (404, none)

/-- One step of the stable descending insertion sort used to model
`Array.prototype.sort` with comparator
`(a, b) => new Date(b.published) - new Date(a.published)` (ES2019 sort is
stable, so its result is the unique stable descending-by-key ordering):
`x` is placed after every earlier element with a strictly larger key and
before the first element whose key is not larger. -/
def insertDesc {α : Type} (key : α → Nat) (x : α) : List α → List α
  | [] => [x]
  | y :: ys => if key x < key y then y :: insertDesc key x ys else x :: y :: ys

/-- Stable sort by descending `key`, the model of the JS `sort` call in
`generateOutbox` (server.js line 250) and `/feed.json` (routes line 212). -/
def stableSortDesc {α : Type} (key : α → Nat) (l : List α) : List α :=
  l.foldr (insertDesc key) []

theorem insertDesc_perm {α : Type} (key : α → Nat) (x : α) (l : List α) :
    List.Perm (insertDesc key x l) (x :: l) := by
  induction l with
  | nil => exact List.Perm.refl _
  | cons y ys ih =>
      simp only [insertDesc]
      by_cases h : key x < key y
      · simp only [h, if_pos]
        exact ((ih.cons y).trans (List.Perm.swap x y ys))
      · simp only [h, if_neg, not_false_iff]
        exact List.Perm.refl _

theorem stableSortDesc_perm {α : Type} (key : α → Nat) (l : List α) :
    List.Perm (stableSortDesc key l) l := by
  induction l with
  | nil => exact List.Perm.refl _
  | cons x xs ih => exact (insertDesc_perm key x _).trans (ih.cons x)

/-- Descending sortedness: every later element's key is at most every
earlier element's key. -/
def SortedDescBy {α : Type} (key : α → Nat) (l : List α) : Prop :=
  l.Pairwise (fun a b => key b ≤ key a)

theorem insertDesc_sorted {α : Type} (key : α → Nat) (x : α) (l : List α)
    (h : SortedDescBy key l) : SortedDescBy key (insertDesc key x l) := by
  induction l with
  | nil => simp [insertDesc, SortedDescBy]
  | cons y ys ih =>
      simp only [insertDesc]
      rcases List.pairwise_cons.mp h with ⟨hy, hys⟩
      by_cases hxy : key x < key y
      · simp only [hxy, if_pos]
        refine List.pairwise_cons.mpr ⟨?_, ih hys⟩
        intro a ha
        rcases List.mem_cons.mp ((insertDesc_perm key x ys).mem_iff.mp ha) with rfl | ha
        · exact Nat.le_of_lt hxy
        · exact hy a ha
      · simp only [hxy, if_neg, not_false_iff]
        refine List.pairwise_cons.mpr ⟨?_, h⟩
        intro a ha
        rcases List.mem_cons.mp ha with rfl | ha
        · exact Nat.le_of_not_lt hxy
        · exact Nat.le_trans (hy a ha) (Nat.le_of_not_lt hxy)

theorem stableSortDesc_sorted {α : Type} (key : α → Nat) (l : List α) :
    SortedDescBy key (stableSortDesc key l) := by
  induction l with
  | nil => simp [stableSortDesc, SortedDescBy]
  | cons x xs ih => exact insertDesc_sorted key x _ ih

theorem insertDesc_filter_eq {α : Type} (key : α → Nat) (x : α) (l : List α)
    (k : Nat) (hx : key x = k) :
    (insertDesc key x l).filter (fun a => key a == k) =
      x :: l.filter (fun a => key a == k) := by
  induction l with
  | nil => simp [insertDesc, List.filter_cons, hx]
  | cons y ys ih =>
      by_cases hxy : key x < key y
      · have hyk : ¬ (key y = k) := by omega
        simp [insertDesc, hxy, List.filter_cons, hyk, ih]
      · simp only [insertDesc, if_neg hxy]
        simp [List.filter_cons, hx]

theorem insertDesc_filter_ne {α : Type} (key : α → Nat) (x : α) (l : List α)
    (k : Nat) (hx : key x ≠ k) :
    (insertDesc key x l).filter (fun a => key a == k) =
      l.filter (fun a => key a == k) := by
  induction l with
  | nil => simp [insertDesc, List.filter_cons, hx]
  | cons y ys ih =>
      by_cases hxy : key x < key y
      · simp [insertDesc, hxy, List.filter_cons, ih]
      · simp [insertDesc, hxy, List.filter_cons, hx]

/-- Stability of the sort: for every key value, the elements holding that
key appear in the sorted output in exactly their original order. -/
theorem stableSortDesc_stable {α : Type} (key : α → Nat) (l : List α) (k : Nat) :
    (stableSortDesc key l).filter (fun a => key a == k) =
      l.filter (fun a => key a == k) := by
  induction l with
  | nil => rfl
  | cons x xs ih =>
      have hstep : stableSortDesc key (x :: xs) = insertDesc key x (stableSortDesc key xs) := rfl
      by_cases hx : key x = k
      · rw [hstep, insertDesc_filter_eq key x _ k hx, ih]
        simp [List.filter_cons, hx]
      · rw [hstep, insertDesc_filter_ne key x _ k hx, ih]
        simp [List.filter_cons, hx]

/-- A hashtag entry on an outbound Article object. -/
structure Hashtag where
  name : String
  href : String
  deriving Repr, DecidableEq

/-- The `object` of an outbound `Create` activity (an Article). -/
structure ArticleObject where
  objType : String
  id : String
  url : String
  name : String
  content : String
  summary : String
  published : Nat
  attributedTo : String
  ccList : List (Option String)
  mediaType : String
  tag : List Hashtag
  deriving Repr, DecidableEq

/-- An outbound `Create` activity, as built in `generateOutbox`,
`broadcastNewPost` and `sendRecentPostsToNewFollower`. -/
structure CreateActivity where
  actType : String
  id : String
  actor : String
  published : Nat
  ccList : List (Option String)
  object : ArticleObject
  deriving Repr, DecidableEq

/-- The blog `Create` activity of `generateOutbox`
(server.js lines 176-201). -/
def mkBlogActivity (baseUrl : String) (p : BlogPost) : CreateActivity :=
  { actType := "Create"
    id := baseUrl ++ "/activities/blog/" ++ p.slug
    actor := baseUrl ++ "/actor.json"
    published := p.date
    ccList := [some (baseUrl ++ "/followers")]
    object :=
      { objType := "Article"
        id := baseUrl ++ "/blog/" ++ p.slug
        url := baseUrl ++ "/blog/" ++ p.slug
        name := p.title
        content := p.content
        summary := p.excerpt
        published := p.date
        attributedTo := baseUrl ++ "/actor.json"
        ccList := [some (baseUrl ++ "/followers")]
        mediaType := "text/html"
        tag := p.tags.map (fun t =>
          { name := "#" ++ t, href := baseUrl ++ "/blog?tag=" ++ t }) } }

/-- The wiki `Create` activity of `generateOutbox`
(server.js lines 209-246); `summary` applies the JS
`page.description || default` fallback. -/
def mkWikiActivity (baseUrl : String) (p : WikiPage) : CreateActivity :=
  { actType := "Create"
    id := baseUrl ++ "/activities/wiki/" ++ p.slug
    actor := baseUrl ++ "/actor.json"
    published := p.lastModified
    ccList := [some (baseUrl ++ "/followers")]
    object :=
      { objType := "Article"
        id := baseUrl ++ "/wiki/" ++ p.slug
        url := baseUrl ++ "/wiki/" ++ p.slug
        name := "📖 " ++ p.title
        content := p.content
        summary := jsOrString p.description ("Wiki page: " ++ p.title)
        published := p.lastModified
        attributedTo := baseUrl ++ "/actor.json"
        ccList := [some (baseUrl ++ "/followers")]
        mediaType := "text/html"
        tag :=
          { name := "#wiki", href := baseUrl ++ "/wiki" } ::
          { name := "#" ++ p.category
            href := baseUrl ++ "/wiki?category=" ++ p.category } ::
          p.tags.map (fun t =>
            { name := "#" ++ t, href := baseUrl ++ "/wiki?tag=" ++ t }) } }

/-- The `[...blogActivities, ...wikiActivities]` concatenation of
`generateOutbox` before the sort (server.js lines 176-249): wiki pages
participate only when `INCLUDE_WIKI_IN_ACTIVITYPUB !== 'false'` and the
supplied wiki list is non-empty, with the `home` slug filtered out. -/
def outboxUnsorted (baseUrl : String) (includeWiki : Bool)
    (blogPosts : List BlogPost) (wikiPages : List WikiPage) :
    List CreateActivity :=
  let blogActivities := blogPosts.map (mkBlogActivity baseUrl)
  let wikiActivities :=
    if includeWiki && !wikiPages.isEmpty then
      ((wikiPages.filter (fun p => p.slug ≠ "home")).map (mkWikiActivity baseUrl))
    else []
  blogActivities ++ wikiActivities

/-- The OrderedCollection returned by `generateOutbox`
(server.js lines 173-259). -/
structure OutboxDoc where
  collType : String
  id : String
  totalItems : Nat
  orderedItems : List CreateActivity
  deriving Repr, DecidableEq

/-- `generateOutbox(blogPosts, wikiPages)` (server.js lines 173-259),
with the wiki-inclusion environment flag passed explicitly. -/
def generateOutbox (baseUrl : String) (includeWiki : Bool)
    (blogPosts : List BlogPost) (wikiPages : List WikiPage) : OutboxDoc :=
  let allActivities :=
    stableSortDesc (fun a => a.published)
      (outboxUnsorted baseUrl includeWiki blogPosts wikiPages)
  { collType := "OrderedCollection"
    id := baseUrl ++ "/outbox.json"
    totalItems := allActivities.length
    orderedItems := allActivities }

/-- A JSON Feed 1.1 item as built by `GET /feed.json`
(routes file, lines 187-209). -/
structure FeedItem where
  id : String
  url : String
  title : String
  contentHtml : String
  summary : Option String
  datePublished : Nat
  tags : List String
  itemKind : String
  deriving Repr, DecidableEq

/-- A blog feed item (routes file, lines 187-196). -/
def mkBlogFeedItem (baseUrl : String) (p : BlogPost) : FeedItem :=
  { id := baseUrl ++ "/blog/" ++ p.slug
    url := baseUrl ++ "/blog/" ++ p.slug
    title := p.title
    contentHtml := p.content
    summary := some p.excerpt
    datePublished := p.date
    tags := p.tags
    itemKind := "blog" }

/-- A wiki feed item (routes file, lines 198-209); `summary` is the raw
`page.description` (possibly `undefined`), with no fallback here. -/
def mkWikiFeedItem (baseUrl : String) (p : WikiPage) : FeedItem :=
  { id := baseUrl ++ "/wiki/" ++ p.slug
    url := baseUrl ++ "/wiki/" ++ p.slug
    title := "📖 " ++ p.title
    contentHtml := p.content
    summary := p.description
    datePublished := p.lastModified
    tags := ("wiki-" ++ p.category) :: p.tags
    itemKind := "wiki" }

/-- The `[...blogItems, ...wikiItems]` concatenation of `/feed.json`
before the sort (routes file, lines 187-211): wiki items are always
included (home slug excluded); no wiki-inclusion flag is consulted. -/
def feedUnsorted (baseUrl : String)
    (blogPosts : List BlogPost) (wikiPages : List WikiPage) : List FeedItem :=
  blogPosts.map (mkBlogFeedItem baseUrl) ++
    (wikiPages.filter (fun p => p.slug ≠ "home")).map (mkWikiFeedItem baseUrl)

/-- The JSON Feed document of `GET /feed.json`
(routes file, lines 181-228). -/
structure FeedDoc where
  version : String
  title : String
  homePageUrl : String
  feedUrl : String
  description : String
  items : List FeedItem
  deriving Repr, DecidableEq

/-- `GET /feed.json` (routes file, lines 181-228). Note: the handler
reads no environment flag — wiki inclusion is unconditional here. -/
def feedJson (s : ServerState)
    (blogPosts : List BlogPost) (wikiPages : List WikiPage) : FeedDoc :=
  { version := "https://jsonfeed.org/version/1.1"
    title := s.displayName
    homePageUrl := s.baseUrl
    feedUrl := s.baseUrl ++ "/feed.json"
    description := s.description
    items :=
      stableSortDesc (fun i => i.datePublished)
        (feedUnsorted s.baseUrl blogPosts wikiPages) }

/-- A network interaction performed by the delivery path: the actor-info
GET of step 1 or the signed inbox POST of step 4. -/
inductive NetCall where
  | get (url : Option String)
  | post (url : String)
  deriving Repr, DecidableEq

/-- The observable outcome of fetching a remote actor document:
response `ok` flag and the `inbox` field of the parsed JSON. -/
structure FetchResult where
  ok : Bool
  inbox : Option String
  deriving Repr, DecidableEq

/-- The parts of `new URL(url)` the signing code reads. -/
structure ParsedUrl where
  hostname : String
  pathname : String
  deriving Repr, DecidableEq

/-- The `Accept(Follow)` handshake activity built by `handleFollow`
(server.js lines 388-396); `objectActor` is the actor of the embedded
original Follow activity. -/
structure AcceptActivity where
  actType : String
  id : String
  actor : String
  objectActor : Option String
  toAudience : List (Option String)
  publishedIso : String
  deriving Repr, DecidableEq

/-- The external world: network, crypto library, clock and JSON
serialiser, supplied as oracle functions. `actorFetch u = none` models a
thrown network error; `rsaSign key msg = none` models `crypto.sign`
throwing (caught in `signRequest`). -/
structure World where
  actorFetch : Option String → Option FetchResult
  postOk : String → Bool
  urlParse : String → Option ParsedUrl
  rsaSign : String → String → Option String
  sha256b64 : String → String
  nowUTC : String
  nowMs : Nat
  nowIso : String
  stringifyAccept : AcceptActivity → String
  stringifyCreate : CreateActivity → String

/-- The signed header set returned by `signRequest`
(server.js lines 307-315). -/
structure SignedHeaders where
  host : String
  date : String
  digest : String
  contentType : String
  userAgent : String
  accept : String
  signature : String
  deriving Repr, DecidableEq

/-- `signRequest(method, url, body)` (server.js lines 272-320): `null`
when no private key is loaded (lines 273-276); otherwise builds the
five-line signing string and the `Signature` header; any exception from
URL parsing or `crypto.sign` is caught and yields `null`. -/
def signRequest (w : World) (baseUrl : String) (priv : Option String)
    (method url body : String) : Option SignedHeaders :=
  match priv with
  | none => none
  | some key =>
    match w.urlParse url with
    | none => none
    | some u =>
      let date := w.nowUTC
      let digest := "SHA-256=" ++ w.sha256b64 body
      let requestTarget := method.toLower ++ " " ++ u.pathname
      let headersToSign :=
        [ "(request-target): " ++ requestTarget
        , "host: " ++ u.hostname
        , "date: " ++ date
        , "digest: " ++ digest
        , "content-type: application/activity+json" ]
      let stringToSign := String.intercalate "\n" headersToSign
      match w.rsaSign key stringToSign with
      | none => none
      | some signatureB64 =>
        some
          { host := u.hostname
            date := date
            digest := digest
            contentType := "application/activity+json"
            userAgent := "ActivityPubServer/1.0"
            accept := "application/activity+json"
            signature := "keyId=\"" ++ baseUrl ++
              "/actor.json#main-key\",algorithm=\"rsa-sha256\",headers=\"(request-target) host date digest content-type\",signature=\"" ++
              signatureB64 ++ "\"" }

/-- `sendActivityToFollower(followerUrl, activity)` (server.js lines
322-375): fetch the remote actor (GET), resolve its inbox, sign the
serialised activity, POST it; every failure path is caught and returns
`false`. The second component records the network calls made, in order;
the POST happens only after `signRequest` returned headers. -/
def sendActivityToFollower (w : World) (baseUrl : String)
    (priv : Option String) (followerUrl : Option String) (body : String) :
    Bool × List NetCall :=
  match w.actorFetch followerUrl with
  | none => (false, [NetCall.get followerUrl])
  | some ar =>
    if !ar.ok then (false, [NetCall.get followerUrl])
    else
      match ar.inbox with
      | none => (false, [NetCall.get followerUrl])
      | some inboxUrl =>
        match signRequest w baseUrl priv "POST" inboxUrl body with
        | none => (false, [NetCall.get followerUrl])
        | some _ => (w.postOk inboxUrl, [NetCall.get followerUrl, NetCall.post inboxUrl])

/-- An event on the timeline of an inbox-request handling: a `saveData`
invocation (with the underlying write success), a network call, a timer
delay, or the HTTP response being sent. -/
inductive Event where
  | write (ok : Bool)
  | net (c : NetCall)
  | sleep (ms : Nat)
  | respond (status : Nat)
  deriving Repr, DecidableEq

/-- The three `fs.writeFile` calls of `saveData` (server.js 102-113),
succeeding or failing as one. -/
def writeDataFiles (writeOk : Bool) : Except String Unit :=
  if writeOk then Except.ok () else Except.error "EIO"

/-- `saveData()` (server.js lines 100-117): the write is attempted, but
any error is caught and merely logged — the promise always resolves, so a
failed durable write is invisible to callers. -/
def saveData (writeOk : Bool) : Except String Unit :=
  match writeDataFiles writeOk with
  | Except.ok () => Except.ok ()
  | Except.error _ => Except.ok ()

/-- The per-item blog `Create` activity of `sendRecentPostsToNewFollower`
(server.js lines 514-535): `cc` is the single new follower, and the
object carries no hashtag list. -/
def mkPushBlogActivity (baseUrl : String) (followerUrl : Option String)
    (p : BlogPost) : CreateActivity :=
  { actType := "Create"
    id := baseUrl ++ "/activities/blog/" ++ p.slug
    actor := baseUrl ++ "/actor.json"
    published := p.date
    ccList := [followerUrl]
    object :=
      { objType := "Article"
        id := baseUrl ++ "/blog/" ++ p.slug
        url := baseUrl ++ "/blog/" ++ p.slug
        name := p.title
        content := p.content
        summary := p.excerpt
        published := p.date
        attributedTo := baseUrl ++ "/actor.json"
        ccList := [followerUrl]
        mediaType := "text/html"
        tag := [] } }

/-- The per-item wiki `Create` activity of `sendRecentPostsToNewFollower`
(server.js lines 564-585). -/
def mkPushWikiActivity (baseUrl : String) (followerUrl : Option String)
    (p : WikiPage) : CreateActivity :=
  { actType := "Create"
    id := baseUrl ++ "/activities/wiki/" ++ p.slug
    actor := baseUrl ++ "/actor.json"
    published := p.lastModified
    ccList := [followerUrl]
    object :=
      { objType := "Article"
        id := baseUrl ++ "/wiki/" ++ p.slug
        url := baseUrl ++ "/wiki/" ++ p.slug
        name := "📖 " ++ p.title
        content := p.content
        summary := jsOrString p.description ("Wiki page: " ++ p.title)
        published := p.lastModified
        attributedTo := baseUrl ++ "/actor.json"
        ccList := [followerUrl]
        mediaType := "text/html"
        tag := [] } }

/-- Outcome of the new-follower content push: the individual `Create`
attempts, how many deliveries succeeded, and the event timeline. -/
structure PushOutcome where
  blogAttempts : List CreateActivity
  wikiAttempts : List CreateActivity
  sentCount : Nat
  events : List Event
  deriving Repr

/-- One delivery attempt of the push loop: the send (with its network
calls) followed by the fixed 300 ms rate-limiting delay
(server.js lines 537-546 and 587-596). -/
def pushOne (w : World) (baseUrl : String) (priv : Option String)
    (followerUrl : Option String) (a : CreateActivity) : Bool × List Event :=
  let r := sendActivityToFollower w baseUrl priv followerUrl (w.stringifyCreate a)
  (r.1, r.2.map Event.net ++ [Event.sleep 300])

/-- `sendRecentPostsToNewFollower(followerUrl, blogPosts, wikiPages)`
(server.js lines 494-609): early return when no content at all; otherwise
up to the first 3 blog posts, then — only when the wiki flag is enabled —
up to 2 non-home wiki pages, each sent individually with a 300 ms delay
after every attempt. -/
def sendRecentPostsToNewFollower (w : World) (baseUrl : String)
    (priv : Option String) (followerUrl : Option String)
    (blogPosts : List BlogPost) (wikiPages : List WikiPage)
    (includeWiki : Bool) : PushOutcome :=
  if blogPosts.isEmpty && wikiPages.isEmpty then
    { blogAttempts := [], wikiAttempts := [], sentCount := 0, events := [] }
  else
    let recentBlogPosts := if blogPosts.isEmpty then [] else blogPosts.take 3
    let blogAttempts := recentBlogPosts.map (mkPushBlogActivity baseUrl followerUrl)
    let recentWikiPages :=
      if includeWiki && !wikiPages.isEmpty then
        (wikiPages.filter (fun p => p.slug ≠ "home")).take 2
      else []
    let wikiAttempts := recentWikiPages.map (mkPushWikiActivity baseUrl followerUrl)
    let results := (blogAttempts ++ wikiAttempts).map (pushOne w baseUrl priv followerUrl)
    { blogAttempts := blogAttempts
      wikiAttempts := wikiAttempts
      sentCount := (results.filter (fun r => r.1)).length
      events := (results.map (fun r => r.2)).flatten }

/-- The `Accept` activity literal of `handleFollow`
(server.js lines 388-396). -/
def mkAcceptActivity (w : World) (baseUrl : String)
    (followActor : Option String) : AcceptActivity :=
  { actType := "Accept"
    id := baseUrl ++ "/activities/accept/" ++ toString w.nowMs
    actor := baseUrl ++ "/actor.json"
    objectActor := followActor
    toAudience := [followActor]
    publishedIso := w.nowIso }

/-- The observable outcome of `handleFollow`: updated follower list, the
`Accept` delivery result (`sent`, returned to the route as `success`),
whether the content push was scheduled, the push outcome, the events
before the function returns, and the deferred `setTimeout` events. -/
structure FollowOutcome where
  followers : List (Option String)
  sent : Bool
  pushScheduled : Bool
  push : PushOutcome
  preEvents : List Event
  asyncEvents : List Event
  deriving Repr

/-- The push outcome when no push was scheduled. -/
def emptyPush : PushOutcome :=
  { blogAttempts := [], wikiAttempts := [], sentCount := 0, events := [] }

/-- `handleFollow(activity, blogPosts, wikiPages)` (server.js lines
377-426): add the follower, save, deliver `Accept`, and — only when that
delivery succeeded (`if (sent)`, line 401) — schedule the recent-content
push behind a 1 s `setTimeout`. -/
def handleFollow (w : World) (s : ServerState) (followActor : Option String)
    (blogPosts : List BlogPost) (wikiPages : List WikiPage)
    (includeWiki writeOk : Bool) : FollowOutcome :=
  let followers2 := setAdd s.followers followActor
  let acceptActivity := mkAcceptActivity w s.baseUrl followActor
  let sendRes := sendActivityToFollower w s.baseUrl s.privateKey followActor
    (w.stringifyAccept acceptActivity)
  let sent := sendRes.1
  let push :=
    if sent then
      sendRecentPostsToNewFollower w s.baseUrl s.privateKey followActor
        blogPosts wikiPages includeWiki
    else emptyPush
  { followers := followers2
    sent := sent
    pushScheduled := sent
    push := push
    preEvents := Event.write writeOk :: sendRes.2.map Event.net
    asyncEvents := if sent then Event.sleep 1000 :: push.events else [] }

/-- Outcome of the broadcast fan-out: aggregate success count, the
followers attempted (in order), and the event timeline. -/
structure BroadcastOutcome where
  successCount : Nat
  attempted : List (Option String)
  events : List Event
  deriving Repr

/-- The `for (const followerUrl of this.followers)` loop of
`broadcastNewPost` (server.js lines 478-489): each iteration sends to one
follower inside a try/catch (so no failure aborts the loop), counts the
success and sleeps 100 ms. -/
def broadcastLoop (w : World) (baseUrl : String) (priv : Option String)
    (body : String) : List (Option String) → BroadcastOutcome
  | [] => { successCount := 0, attempted := [], events := [] }
  | f :: rest =>
      let r := sendActivityToFollower w baseUrl priv f body
      let tail := broadcastLoop w baseUrl priv body rest
      { successCount := (if r.1 then 1 else 0) + tail.successCount
        attempted := f :: tail.attempted
        events := r.2.map Event.net ++ Event.sleep 100 :: tail.events }

/-- `broadcastNewPost(post)` (server.js lines 442-492): early return with
no deliveries when there are no followers; otherwise the sequential loop
over all followers. The `Create` activity literal of lines 450-476 is
field-for-field the one `generateOutbox` builds, hence `mkBlogActivity`. -/
def broadcastNewPost (w : World) (s : ServerState) (post : BlogPost) :
    BroadcastOutcome :=
  if s.followers.isEmpty then
    { successCount := 0, attempted := [], events := [] }
  else
    broadcastLoop w s.baseUrl s.privateKey
      (w.stringifyCreate (mkBlogActivity s.baseUrl post)) s.followers

/-- The request body of `POST /inbox` as the route sees it: absent or
non-object bodies, or an object with (possibly `undefined`) `type`,
`actor` and `object.type` fields — the only fields the route and the
handlers read. -/
inductive JsBody where
  | nonObject
  | obj (actType : Option String) (actor : Option String) (objectType : Option String)
  deriving Repr, DecidableEq

/-- The observable outcome of one `POST /inbox` request. -/
structure InboxOutcome where
  state : ServerState
  status : Nat
  trace : List Event
  pushScheduled : Bool
  deriving Repr

/-- `app.post('/inbox')` (routes file, lines 101-178): the guard
`!activity || typeof activity !== 'object' || !activity.type` rejects a
missing body, a non-object body, and a falsy `type` — absent (undefined)
or the empty string — with 400 and no mutation; otherwise dispatch Follow / Undo(Follow) / Like / Announce /
default-archive, each persisting via `saveData` before `res.json`
responds. The trace lists the events in timeline order (deferred
`setTimeout` work appears after the response event). -/
def inboxPost (w : World) (s : ServerState) (body : Option JsBody)
    (blogPosts : List BlogPost) (wikiPages : List WikiPage)
    (includeWiki writeOk : Bool) : InboxOutcome :=
  match body with
  | none =>
      { state := s, status := 400, trace := [Event.respond 400], pushScheduled := false }
  | some JsBody.nonObject =>
      { state := s, status := 400, trace := [Event.respond 400], pushScheduled := false }
  | some (JsBody.obj actType actor objectType) =>
    match actType with
    | none =>
        { state := s, status := 400, trace := [Event.respond 400], pushScheduled := false }
    | some t =>
      if t = "" then
        { state := s, status := 400, trace := [Event.respond 400], pushScheduled := false }
      else if t = "Follow" then
        let r := handleFollow w s actor blogPosts wikiPages includeWiki writeOk
        { state := { s with followers := r.followers }
          status := 202
          trace := r.preEvents ++ Event.respond 202 :: r.asyncEvents
          pushScheduled := r.pushScheduled }
      else if t = "Undo" then
        if objectType = some "Follow" then
          { state := { s with followers := setDelete s.followers actor }
            status := 200
            trace := [Event.write writeOk, Event.respond 200]
            pushScheduled := false }
        else
          { state := s, status := 200, trace := [Event.respond 200], pushScheduled := false }
      else if t = "Like" then
        { state := { s with activities := s.activities ++ [⟨t, actor, w.nowMs⟩] }
          status := 200
          trace := [Event.write writeOk, Event.respond 200]
          pushScheduled := false }
      else if t = "Announce" then
        { state := { s with activities := s.activities ++ [⟨t, actor, w.nowMs⟩] }
          status := 200
          trace := [Event.write writeOk, Event.respond 200]
          pushScheduled := false }
      else
        { state := { s with activities := s.activities ++ [⟨t, actor, w.nowMs⟩] }
          status := 200
          trace := [Event.write writeOk, Event.respond 200]
          pushScheduled := false }

/-- Whether an event is a `saveData` persistence attempt. -/
def eventIsWrite : Event → Bool
  | Event.write _ => true
  | _ => false

/-- Whether an event is the HTTP response being sent. -/
def eventIsRespond : Event → Bool
  | Event.respond _ => true
  | _ => false

/-- True when some persistence attempt happens strictly before the first
response event of the trace. -/
def writeBeforeRespond (tr : List Event) : Bool :=
  (tr.takeWhile (fun e => !eventIsRespond e)).any eventIsWrite

theorem setAdd_mem_self {α : Type} [DecidableEq α] (s : List α) (x : α) :
    x ∈ setAdd s x := by
  unfold setAdd
  by_cases hx : x ∈ s <;> simp [hx]

theorem setAdd_nodup {α : Type} [DecidableEq α] {s : List α} (x : α)
    (h : s.Nodup) : (setAdd s x).Nodup := by
  unfold setAdd
  by_cases hx : x ∈ s
  · rwa [if_pos hx]
  · rw [if_neg hx]
    refine List.Nodup.append h (List.nodup_singleton x) ?_
    intro a ha hmem
    rw [List.mem_singleton] at hmem
    subst hmem
    exact hx ha

theorem count_eq_one_of_nodup_mem {α : Type} [BEq α] [LawfulBEq α]
    {s : List α} {x : α} (h : s.Nodup) (hx : x ∈ s) : s.count x = 1 := by
  induction s with
  | nil => cases hx
  | cons y ys ih =>
      rcases List.pairwise_cons.mp h with ⟨hy, hys⟩
      rcases List.mem_cons.mp hx with rfl | hx2
      · rw [List.count_cons_self]
        have hnot : x ∉ ys := fun hmem => (hy x hmem) rfl
        rw [List.count_eq_zero.mpr hnot]
      · have hne : x ≠ y := by
          intro hxy
          subst hxy
          exact (hy x hx2) rfl
        rw [List.count_cons_of_ne hne, ih hys hx2]

theorem setAdd_count_self {α : Type} [BEq α] [LawfulBEq α] [DecidableEq α]
    {s : List α} (x : α)
    (h : s.Nodup) : (setAdd s x).count x = 1 := by
  unfold setAdd
  by_cases hx : x ∈ s
  · rw [if_pos hx]
    exact count_eq_one_of_nodup_mem h hx
  · rw [if_neg hx]
    rw [List.count_append, List.count_eq_zero.mpr hx]
    simp

/-- A concrete well-behaved external world used to instantiate theorems:
fetches succeed, the remote inbox is found, signing succeeds, posts are
accepted. -/
def demoWorld : World :=
  { actorFetch := fun _ => some { ok := true, inbox := some "https://remote.example/inbox" }
    postOk := fun _ => true
    urlParse := fun _ => some { hostname := "remote.example", pathname := "/inbox" }
    rsaSign := fun _ _ => some "U0lH"
    sha256b64 := fun _ => "RElHRVNU"
    nowUTC := "Mon, 01 Jan 2024 00:00:00 GMT"
    nowMs := 1704067200000
    nowIso := "2024-01-01T00:00:00.000Z"
    stringifyAccept := fun _ => "accept-json"
    stringifyCreate := fun _ => "create-json" }

/-- A concrete server state with both keys loaded and no followers. -/
def demoState : ServerState :=
  { domain := "example.com"
    username := "blog"
    displayName := "Blog and Wiki"
    description := "demo"
    baseUrl := "https://example.com"
    publicKey := some "PUB"
    privateKey := some "PRIV"
    followers := []
    following := []
    activities := [] }

/-- A state in which exactly one of the two keys (the private one) is
loaded. -/
def sPrivOnly : ServerState :=
  { demoState with publicKey := none, privateKey := some "PRIV" }

/-- C1 counterexample: in a state where only the private key is loaded,
`GET /actor` still responds 200 and the served document carries a null
`publicKeyPem` — contradicting the claim that `actorDocument()` must fail
and never return a document with a null key. -/
theorem C1_counterexample :
    sPrivOnly.publicKey = none ∧
    sPrivOnly.privateKey.isSome = true ∧
    (actorRoute sPrivOnly).1 = 200 ∧
    ((actorRoute sPrivOnly).2).publicKey.publicKeyPem = none := by
  refine ⟨rfl, rfl, rfl, rfl⟩

/-- C1 (amended): `generateActor()` never checks key availability — for
every server state, `GET /actor` responds 200 with the document, whose
`publicKeyPem` is exactly the current public-key field (null when that
key is absent). There is no failure path. -/
theorem C1_actor_always_document (s : ServerState) :
    actorRoute s = (200, generateActor s) ∧
    (generateActor s).publicKey.publicKeyPem = s.publicKey :=
  ⟨rfl, rfl⟩

/-- C7: the WebFinger route returns 200 with the JRD document exactly
when the `resource` query equals `acct:<username>@<domain>`, and 404 with
no document on every other value (including an absent parameter); the
served document's subject is that same acct string. -/
theorem C7_webfinger_exact_match (s : ServerState) (r : Option String) :
    webfingerRoute s r =
      (if r = some (expectedAcct s) then (200, some (generateWebFinger s))
       else (404, none)) ∧
    (generateWebFinger s).subject = expectedAcct s :=
  ⟨rfl, rfl⟩

/-- C3: handling the same Follow activity (same actor value) twice leaves
exactly one entry for that actor in the followers set, which stays
duplicate-free — `Set.prototype.add` is idempotent. -/
theorem C3_follow_idempotent (w : World) (s : ServerState)
    (a : Option String) (bp : List BlogPost) (wp : List WikiPage)
    (iw wk : Bool) (hnd : s.followers.Nodup) :
    (handleFollow w
        { s with followers := (handleFollow w s a bp wp iw wk).followers }
        a bp wp iw wk).followers.count a = 1 ∧
    (handleFollow w
        { s with followers := (handleFollow w s a bp wp iw wk).followers }
        a bp wp iw wk).followers.Nodup := by
  have h : (handleFollow w
      { s with followers := (handleFollow w s a bp wp iw wk).followers }
      a bp wp iw wk).followers = setAdd (setAdd s.followers a) a := rfl
  rw [h]
  exact ⟨setAdd_count_self a (setAdd_nodup a hnd), setAdd_nodup a (setAdd_nodup a hnd)⟩

/-- C3 witness: two identical Follows from a concrete actor against the
empty follower set leave exactly one duplicate-free entry. -/
theorem C3_follow_idempotent_witness :
    demoState.followers.Nodup ∧
    ((handleFollow demoWorld
        { demoState with followers :=
            (handleFollow demoWorld demoState (some "https://remote.example/users/alice")
              [] [] true true).followers }
        (some "https://remote.example/users/alice") [] [] true true).followers.count
          (some "https://remote.example/users/alice") = 1 ∧
     (handleFollow demoWorld
        { demoState with followers :=
            (handleFollow demoWorld demoState (some "https://remote.example/users/alice")
              [] [] true true).followers }
        (some "https://remote.example/users/alice") [] [] true true).followers.Nodup) :=
  ⟨by decide,
   C3_follow_idempotent demoWorld demoState (some "https://remote.example/users/alice")
     [] [] true true (by decide)⟩

/-- C5 counterexample: with no private key the delivery attempt does NOT
abort before any network call — against a world where the remote actor
fetch succeeds, the GET is still performed (the network-call list is
non-empty) before the signing failure aborts the POST. -/
theorem C5_counterexample :
    (sendActivityToFollower demoWorld "https://example.com" none
        (some "https://remote.example/users/alice") "body").2 ≠ [] ∧
    (sendActivityToFollower demoWorld "https://example.com" none
        (some "https://remote.example/users/alice") "body").1 = false ∧
    (sendActivityToFollower demoWorld "https://example.com" none
        (some "https://remote.example/users/alice") "body").2 =
      [NetCall.get (some "https://remote.example/users/alice")] := by
  refine ⟨?_, rfl, rfl⟩
  intro hcontra
  have h2 : (sendActivityToFollower demoWorld "https://example.com" none
      (some "https://remote.example/users/alice") "body").2 =
      [NetCall.get (some "https://remote.example/users/alice")] := rfl
  rw [h2] at hcontra
  exact List.cons_ne_nil _ _ hcontra

/-- C5 (amended): with no private key, `signRequest` returns null and
every delivery attempt returns false having performed only the
actor-fetch GET — the signed inbox POST never happens, so no unsigned
request is ever sent, but the fetch GET is not avoided. -/
theorem C5_no_key_never_posts (w : World) (baseUrl : String)
    (u : Option String) (body m url b : String) :
    signRequest w baseUrl none m url b = none ∧
    sendActivityToFollower w baseUrl none u body = (false, [NetCall.get u]) := by
  refine ⟨rfl, ?_⟩
  simp only [sendActivityToFollower]
  rcases w.actorFetch u with _ | ⟨ok, inbox⟩
  · rfl
  · cases ok
    · rfl
    · rcases inbox with _ | inboxUrl
      · rfl
      · rfl

/-- C9: `POST /inbox` validates only the presence of a `type` field — a
`{"type":"Follow"}` body with no actor is accepted with 202 and the
JavaScript value `undefined` (here `none`) is added to the followers set,
while a body with no `type` at all is the only shape rejected with 400. -/
theorem C9_actorless_follow_accepted (w : World) (s : ServerState)
    (bp : List BlogPost) (wp : List WikiPage) (iw wk : Bool)
    (a o : Option String) :
    (inboxPost w s (some (JsBody.obj (some "Follow") none none)) bp wp iw wk).status = 202 ∧
    (inboxPost w s (some (JsBody.obj (some "Follow") none none)) bp wp iw wk).state.followers =
      setAdd s.followers none ∧
    none ∈ (inboxPost w s (some (JsBody.obj (some "Follow") none none)) bp wp iw wk).state.followers ∧
    (inboxPost w s (some (JsBody.obj none a o)) bp wp iw wk).status = 400 := by
  refine ⟨rfl, rfl, ?_, rfl⟩
  exact setAdd_mem_self s.followers none

/-- A concrete blog post. -/
def demoPost : BlogPost :=
  { slug := "hello", title := "Hello", content := "c", excerpt := "e"
    date := 100, tags := [] }

/-- A concrete non-home wiki page. -/
def demoWiki : WikiPage :=
  { slug := "guide", title := "Guide", content := "c", description := some "d"
    lastModified := 50, category := "misc", tags := [] }

/-- A world in which the remote actor fetch responds non-2xx, so every
delivery attempt fails at step 1. -/
def wFetchFail : World :=
  { demoWorld with actorFetch := fun _ => some { ok := false, inbox := none } }

theorem pushOne_sleep_count (w : World) (baseUrl : String)
    (priv : Option String) (u : Option String) (a : CreateActivity) :
    (pushOne w baseUrl priv u a).2.count (Event.sleep 300) = 1 := by
  unfold pushOne
  rw [List.count_append]
  have hz : ((sendActivityToFollower w baseUrl priv u (w.stringifyCreate a)).2.map
      Event.net).count (Event.sleep 300) = 0 := by
    rw [List.count_eq_zero]
    intro hmem
    rcases List.mem_map.mp hmem with ⟨c, _, hc⟩
    simp at hc
  rw [hz]
  simp

theorem count_flatten_pushOne (w : World) (baseUrl : String)
    (priv : Option String) (u : Option String) (l : List CreateActivity) :
    (((l.map (pushOne w baseUrl priv u)).map (fun r => r.2)).flatten).count
      (Event.sleep 300) = l.length := by
  induction l with
  | nil => rfl
  | cons a rest ih =>
      simp only [List.map_cons, List.flatten_cons, List.count_append, ih,
        pushOne_sleep_count, List.length_cons]
      omega

theorem push_blog_le_three (w : World) (baseUrl : String)
    (priv : Option String) (u : Option String) (bp : List BlogPost)
    (wp : List WikiPage) (iw : Bool) :
    (sendRecentPostsToNewFollower w baseUrl priv u bp wp iw).blogAttempts.length ≤ 3 := by
  unfold sendRecentPostsToNewFollower
  split
  · simp
  · simp only [List.length_map]
    split
    · simp
    · rw [List.length_take]
      omega

theorem push_wiki_le_two (w : World) (baseUrl : String)
    (priv : Option String) (u : Option String) (bp : List BlogPost)
    (wp : List WikiPage) (iw : Bool) :
    (sendRecentPostsToNewFollower w baseUrl priv u bp wp iw).wikiAttempts.length ≤ 2 := by
  unfold sendRecentPostsToNewFollower
  split
  · simp
  · simp only [List.length_map]
    split
    · rw [List.length_take]
      omega
    · simp

theorem push_sleep_per_attempt (w : World) (baseUrl : String)
    (priv : Option String) (u : Option String) (bp : List BlogPost)
    (wp : List WikiPage) (iw : Bool) :
    (sendRecentPostsToNewFollower w baseUrl priv u bp wp iw).events.count (Event.sleep 300) =
      (sendRecentPostsToNewFollower w baseUrl priv u bp wp iw).blogAttempts.length +
      (sendRecentPostsToNewFollower w baseUrl priv u bp wp iw).wikiAttempts.length := by
  unfold sendRecentPostsToNewFollower
  split
  · rfl
  · simp only [count_flatten_pushOne, List.length_append]

/-- C2 counterexample: when the Accept delivery fails (remote actor fetch
non-2xx), the new follower is added but NO recent content is pushed —
refuting the claim that the push happens regardless of the Accept
delivery outcome. -/
theorem C2_counterexample :
    (handleFollow wFetchFail demoState (some "https://remote.example/users/alice")
        [demoPost] [] true true).sent = false ∧
    (handleFollow wFetchFail demoState (some "https://remote.example/users/alice")
        [demoPost] [] true true).pushScheduled = false ∧
    (handleFollow wFetchFail demoState (some "https://remote.example/users/alice")
        [demoPost] [] true true).asyncEvents = [] ∧
    (handleFollow wFetchFail demoState (some "https://remote.example/users/alice")
        [demoPost] [] true true).push.blogAttempts = [] ∧
    (some "https://remote.example/users/alice") ∈
      (handleFollow wFetchFail demoState (some "https://remote.example/users/alice")
        [demoPost] [] true true).followers := by
  refine ⟨rfl, rfl, rfl, rfl, ?_⟩
  exact setAdd_mem_self demoState.followers (some "https://remote.example/users/alice")

/-- C2 (amended): after a Follow the recent-content push is scheduled if
and only if the Accept delivery succeeded (`if (sent)`); when it runs it
attempts at most 3 blog items and at most 2 wiki items, each as an
individual `Create` delivery followed by its own fixed 300 ms delay. -/
theorem C2_push_gated_on_accept (w : World) (s : ServerState)
    (a : Option String) (bp : List BlogPost) (wp : List WikiPage)
    (iw wk : Bool) :
    (handleFollow w s a bp wp iw wk).pushScheduled = (handleFollow w s a bp wp iw wk).sent ∧
    (handleFollow w s a bp wp iw wk).sent =
      (sendActivityToFollower w s.baseUrl s.privateKey a
        (w.stringifyAccept (mkAcceptActivity w s.baseUrl a))).1 ∧
    (handleFollow w s a bp wp iw wk).push =
      (if (handleFollow w s a bp wp iw wk).sent then
        sendRecentPostsToNewFollower w s.baseUrl s.privateKey a bp wp iw
      else emptyPush) ∧
    (handleFollow w s a bp wp iw wk).asyncEvents =
      (if (handleFollow w s a bp wp iw wk).sent then
        Event.sleep 1000 :: (handleFollow w s a bp wp iw wk).push.events
      else []) ∧
    (handleFollow w s a bp wp iw wk).push.blogAttempts.length ≤ 3 ∧
    (handleFollow w s a bp wp iw wk).push.wikiAttempts.length ≤ 2 ∧
    (handleFollow w s a bp wp iw wk).push.events.count (Event.sleep 300) =
      (handleFollow w s a bp wp iw wk).push.blogAttempts.length +
      (handleFollow w s a bp wp iw wk).push.wikiAttempts.length := by
  have hpush : (handleFollow w s a bp wp iw wk).push =
      (if (sendActivityToFollower w s.baseUrl s.privateKey a
            (w.stringifyAccept (mkAcceptActivity w s.baseUrl a))).1 then
        sendRecentPostsToNewFollower w s.baseUrl s.privateKey a bp wp iw
      else emptyPush) := rfl
  refine ⟨rfl, rfl, rfl, rfl, ?_, ?_, ?_⟩ <;> rw [hpush] <;> split
  · exact push_blog_le_three w s.baseUrl s.privateKey a bp wp iw
  · simp [emptyPush]
  · exact push_wiki_le_two w s.baseUrl s.privateKey a bp wp iw
  · simp [emptyPush]
  · exact push_sleep_per_attempt w s.baseUrl s.privateKey a bp wp iw
  · simp [emptyPush]

/-- C4 counterexample: a Like activity whose durable write fails is still
answered with plain 200 — the write error is swallowed inside `saveData`,
so the remote sender never sees a 500-equivalent. -/
theorem C4_counterexample :
    writeDataFiles false = Except.error "EIO" ∧
    saveData false = Except.ok () ∧
    (inboxPost demoWorld demoState
        (some (JsBody.obj (some "Like") (some "https://remote.example/users/alice")
          none)) [] [] true false).status = 200 ∧
    (inboxPost demoWorld demoState
        (some (JsBody.obj (some "Like") (some "https://remote.example/users/alice")
          none)) [] [] true false).trace =
      [Event.write false, Event.respond 200] :=
  ⟨rfl, rfl, rfl, rfl⟩

/-- C4 (amended): bodies whose `type` is falsy (absent or the empty
string) are rejected with 400 and no persistence attempt; for every
state-mutating inbox activity (Follow, Undo-Follow, Like, Announce,
default-archived other non-empty type) a persistence attempt happens
before the HTTP response is sent, but `saveData` catches and logs write
errors, so the response is the normal success status (202 for Follow,
200 otherwise) whether or not the durable write succeeded. -/
theorem C4_save_swallows_errors (w : World) (s : ServerState)
    (a o : Option String) (t : String) (bp : List BlogPost)
    (wp : List WikiPage) (iw wk : Bool)
    (ht : t ≠ "" ∧ t ≠ "Follow" ∧ t ≠ "Undo" ∧ t ≠ "Like" ∧ t ≠ "Announce") :
    saveData wk = Except.ok () ∧
    (inboxPost w s (some (JsBody.obj (some "") a o)) bp wp iw wk).status = 400 ∧
    (inboxPost w s (some (JsBody.obj (some "") a o)) bp wp iw wk).trace =
      [Event.respond 400] ∧
    writeBeforeRespond
      (inboxPost w s (some (JsBody.obj (some "Follow") a o)) bp wp iw wk).trace = true ∧
    (inboxPost w s (some (JsBody.obj (some "Follow") a o)) bp wp iw wk).status = 202 ∧
    writeBeforeRespond
      (inboxPost w s (some (JsBody.obj (some "Undo") a (some "Follow"))) bp wp iw wk).trace = true ∧
    (inboxPost w s (some (JsBody.obj (some "Undo") a (some "Follow"))) bp wp iw wk).status = 200 ∧
    writeBeforeRespond
      (inboxPost w s (some (JsBody.obj (some "Like") a o)) bp wp iw wk).trace = true ∧
    (inboxPost w s (some (JsBody.obj (some "Like") a o)) bp wp iw wk).status = 200 ∧
    writeBeforeRespond
      (inboxPost w s (some (JsBody.obj (some "Announce") a o)) bp wp iw wk).trace = true ∧
    (inboxPost w s (some (JsBody.obj (some "Announce") a o)) bp wp iw wk).status = 200 ∧
    writeBeforeRespond
      (inboxPost w s (some (JsBody.obj (some t) a o)) bp wp iw wk).trace = true ∧
    (inboxPost w s (some (JsBody.obj (some t) a o)) bp wp iw wk).status = 200 := by
  obtain ⟨ht0, ht1, ht2, ht3, ht4⟩ := ht
  have hcase : saveData wk = Except.ok () := by
    unfold saveData writeDataFiles
    cases wk <;> rfl
  have harch : inboxPost w s (some (JsBody.obj (some t) a o)) bp wp iw wk =
      { state := { s with activities := s.activities ++ [⟨t, a, w.nowMs⟩] }
        status := 200
        trace := [Event.write wk, Event.respond 200]
        pushScheduled := false } := by
    simp only [inboxPost]
    rw [if_neg ht0, if_neg ht1, if_neg ht2, if_neg ht3, if_neg ht4]
  refine ⟨hcase, rfl, rfl, rfl, rfl, rfl, rfl, rfl, rfl, rfl, rfl, ?_, ?_⟩
  · rw [harch]
    rfl
  · rw [harch]

/-- C4 witness: the amended statement instantiated at a concrete
archive-type activity (`Create`) with a failing write. -/
theorem C4_save_swallows_errors_witness :
    ("Create" ≠ "" ∧ "Create" ≠ "Follow" ∧ "Create" ≠ "Undo" ∧
      "Create" ≠ "Like" ∧ "Create" ≠ "Announce") ∧
    (saveData false = Except.ok () ∧
     (inboxPost demoWorld demoState
       (some (JsBody.obj (some "") (some "https://remote.example/users/alice") none))
       [] [] true false).status = 400 ∧
     (inboxPost demoWorld demoState
       (some (JsBody.obj (some "") (some "https://remote.example/users/alice") none))
       [] [] true false).trace = [Event.respond 400] ∧
     writeBeforeRespond
       (inboxPost demoWorld demoState
         (some (JsBody.obj (some "Follow") (some "https://remote.example/users/alice") none))
         [] [] true false).trace = true ∧
     (inboxPost demoWorld demoState
       (some (JsBody.obj (some "Follow") (some "https://remote.example/users/alice") none))
       [] [] true false).status = 202 ∧
     writeBeforeRespond
       (inboxPost demoWorld demoState
         (some (JsBody.obj (some "Undo") (some "https://remote.example/users/alice")
           (some "Follow"))) [] [] true false).trace = true ∧
     (inboxPost demoWorld demoState
       (some (JsBody.obj (some "Undo") (some "https://remote.example/users/alice")
         (some "Follow"))) [] [] true false).status = 200 ∧
     writeBeforeRespond
       (inboxPost demoWorld demoState
         (some (JsBody.obj (some "Like") (some "https://remote.example/users/alice") none))
         [] [] true false).trace = true ∧
     (inboxPost demoWorld demoState
       (some (JsBody.obj (some "Like") (some "https://remote.example/users/alice") none))
       [] [] true false).status = 200 ∧
     writeBeforeRespond
       (inboxPost demoWorld demoState
         (some (JsBody.obj (some "Announce") (some "https://remote.example/users/alice") none))
         [] [] true false).trace = true ∧
     (inboxPost demoWorld demoState
       (some (JsBody.obj (some "Announce") (some "https://remote.example/users/alice") none))
       [] [] true false).status = 200 ∧
     writeBeforeRespond
       (inboxPost demoWorld demoState
         (some (JsBody.obj (some "Create") (some "https://remote.example/users/alice") none))
         [] [] true false).trace = true ∧
     (inboxPost demoWorld demoState
       (some (JsBody.obj (some "Create") (some "https://remote.example/users/alice") none))
       [] [] true false).status = 200) :=
  ⟨by decide,
   C4_save_swallows_errors demoWorld demoState
     (some "https://remote.example/users/alice") none "Create" [] [] true false
     (by decide)⟩

/-- C6: both the outbox and the JSON feed list their activities sorted by
descending publish timestamp, and for every timestamp value the items
holding it keep their original relative order (the result is the stable
permutation of the pre-sort concatenation). -/
theorem C6_ordering (baseUrl : String) (s : ServerState) (iw : Bool)
    (bp : List BlogPost) (wp : List WikiPage) :
    SortedDescBy (fun a => a.published) (generateOutbox baseUrl iw bp wp).orderedItems ∧
    (∀ k, (generateOutbox baseUrl iw bp wp).orderedItems.filter
        (fun a => a.published == k) =
      (outboxUnsorted baseUrl iw bp wp).filter (fun a => a.published == k)) ∧
    List.Perm (generateOutbox baseUrl iw bp wp).orderedItems
      (outboxUnsorted baseUrl iw bp wp) ∧
    SortedDescBy (fun i => i.datePublished) (feedJson s bp wp).items ∧
    (∀ k, (feedJson s bp wp).items.filter (fun i => i.datePublished == k) =
      (feedUnsorted s.baseUrl bp wp).filter (fun i => i.datePublished == k)) ∧
    List.Perm (feedJson s bp wp).items (feedUnsorted s.baseUrl bp wp) :=
  ⟨stableSortDesc_sorted _ _,
   fun k => stableSortDesc_stable _ _ k,
   stableSortDesc_perm _ _,
   stableSortDesc_sorted _ _,
   fun k => stableSortDesc_stable _ _ k,
   stableSortDesc_perm _ _⟩

theorem broadcastLoop_spec (w : World) (baseUrl : String)
    (priv : Option String) (body : String) (fs : List (Option String)) :
    (broadcastLoop w baseUrl priv body fs).attempted = fs ∧
    (broadcastLoop w baseUrl priv body fs).successCount =
      fs.countP (fun f => (sendActivityToFollower w baseUrl priv f body).1) := by
  induction fs with
  | nil => exact ⟨rfl, rfl⟩
  | cons f rest ih =>
      constructor
      · show f :: (broadcastLoop w baseUrl priv body rest).attempted = f :: rest
        rw [ih.1]
      · show (if (sendActivityToFollower w baseUrl priv f body).1 then 1 else 0) +
            (broadcastLoop w baseUrl priv body rest).successCount = _
        rw [ih.2, List.countP_cons]
        cases h : (sendActivityToFollower w baseUrl priv f body).1 <;>
          simp [h, Nat.add_comm]

/-- Three concrete followers. -/
def demo3State : ServerState :=
  { demoState with followers :=
      [ some "https://a.example/u/1"
      , some "https://b.example/u/2"
      , some "https://c.example/u/3" ] }

/-- A world in which fetching the second follower's actor document fails
(non-2xx) while the other two deliveries succeed. -/
def demo3World : World :=
  { demoWorld with
    actorFetch := fun u =>
      if u = some "https://b.example/u/2" then some { ok := false, inbox := none }
      else some { ok := true, inbox := some "https://inbox.example" } }

/-- C8: the broadcast fan-out attempts every current follower in order —
an individual failure never aborts the remaining deliveries — and the
reported success count is exactly the number of successful deliveries; in
particular, with 3 followers of which exactly one fails, it reports 2. -/
theorem C8_broadcast_counts_successes (w : World) (s : ServerState)
    (post : BlogPost) :
    (broadcastNewPost w s post).attempted = s.followers ∧
    (broadcastNewPost w s post).successCount =
      s.followers.countP (fun f =>
        (sendActivityToFollower w s.baseUrl s.privateKey f
          (w.stringifyCreate (mkBlogActivity s.baseUrl post))).1) ∧
    demo3State.followers.length = 3 ∧
    (broadcastNewPost demo3World demo3State demoPost).attempted =
      demo3State.followers ∧
    (broadcastNewPost demo3World demo3State demoPost).successCount = 2 := by
  have hloop := broadcastLoop_spec w s.baseUrl s.privateKey
    (w.stringifyCreate (mkBlogActivity s.baseUrl post)) s.followers
  refine ⟨?_, ?_, by decide, by decide, by decide⟩
  · unfold broadcastNewPost
    split
    · next hemp => simp [List.isEmpty_iff.mp hemp]
    · exact hloop.1
  · unfold broadcastNewPost
    split
    · next hemp => simp [List.isEmpty_iff.mp hemp]
    · exact hloop.2

/-- C10: `/feed.json` includes non-home wiki items unconditionally — the
wiki-inclusion flag is not read there — while setting the flag to false
empties the wiki part of both the outbox and the new-follower content
push. -/
theorem C10_feed_ignores_wiki_flag (s : ServerState) (w : World)
    (u : Option String) (bp : List BlogPost) (wp : List WikiPage)
    (p : WikiPage) (hp : p ∈ wp) (hhome : p.slug ≠ "home") :
    mkWikiFeedItem s.baseUrl p ∈ (feedJson s bp wp).items ∧
    (generateOutbox s.baseUrl false bp wp).orderedItems =
      stableSortDesc (fun a => a.published) (bp.map (mkBlogActivity s.baseUrl)) ∧
    (sendRecentPostsToNewFollower w s.baseUrl s.privateKey u bp wp false).wikiAttempts = [] := by
  refine ⟨?_, ?_, ?_⟩
  · have hperm := stableSortDesc_perm (fun i => i.datePublished)
      (feedUnsorted s.baseUrl bp wp)
    refine hperm.mem_iff.mpr ?_
    unfold feedUnsorted
    refine List.mem_append.mpr (Or.inr ?_)
    exact List.mem_map_of_mem _ (List.mem_filter.mpr ⟨hp, by simpa using hhome⟩)
  · have hun : outboxUnsorted s.baseUrl false bp wp =
        bp.map (mkBlogActivity s.baseUrl) := by
      unfold outboxUnsorted
      simp
    show stableSortDesc (fun a => a.published)
        (outboxUnsorted s.baseUrl false bp wp) = _
    rw [hun]
  · unfold sendRecentPostsToNewFollower
    split
    · rfl
    · rfl

/-- C10 witness: the theorem instantiated at a concrete non-home wiki
page present in the supplied wiki list. -/
theorem C10_feed_ignores_wiki_flag_witness :
    demoWiki ∈ [demoWiki] ∧ demoWiki.slug ≠ "home" ∧
    (mkWikiFeedItem demoState.baseUrl demoWiki ∈
        (feedJson demoState [demoPost] [demoWiki]).items ∧
     (generateOutbox demoState.baseUrl false [demoPost] [demoWiki]).orderedItems =
       stableSortDesc (fun a => a.published)
         ([demoPost].map (mkBlogActivity demoState.baseUrl)) ∧
     (sendRecentPostsToNewFollower demoWorld demoState.baseUrl demoState.privateKey
        (some "https://remote.example/users/alice") [demoPost] [demoWiki]
        false).wikiAttempts = []) :=
  ⟨by decide, by decide,
   C10_feed_ignores_wiki_flag demoState demoWorld
     (some "https://remote.example/users/alice") [demoPost] [demoWiki] demoWiki
     (by decide) (by decide)⟩
